import Mathlib

/-!
Shallow embedding of the user-management core of `src/script.py`
(class `UserDatabase`): the SQLite-backed table
`users(id INTEGER PRIMARY KEY, username TEXT UNIQUE, password TEXT,
email TEXT, api_key TEXT UNIQUE)` and the five operations
`validate_input`, `add_user`, `authenticate`, `get_user_by_id`,
`update_email`.

Modelling choices:
* Python exceptions become an explicit `PyErr` value; `Except PyErr`
  is the result of an operation.  `raise RuntimeError(...) from e`
  records the wrapped cause as the Python type name of `e`, mirroring
  what the script logs (`type(e).__name__`).
* The SQLite table is a list of rows; `INTEGER PRIMARY KEY` assigns
  `max id + 1` (so id `1` in an empty table).  The `UNIQUE` columns
  raise an `IntegrityError` at `INSERT` time, which the script maps to
  `ValueError "Username already exists"`.
* `bcrypt.gensalt()` / `secrets.token_hex(16)` are nondeterministic;
  the salt and api key are threaded in as explicit arguments.
  `bcrypt.hashpw` / `bcrypt.checkpw` are modelled by an opaque-looking
  pair: a hash value determines exactly which password verifies.
* Side effects are made observable in an `Effects` record: how many
  SQLite connections the call opened, and the log lines it emitted.
* The id arguments of `get_user_by_id` / `update_email` may be Python
  ints or strings (`IdArg`); the script coerces with `int(...)`,
  which we model with `pyIntOfString`.
-/

deriving instance DecidableEq for Except

/-- A Python value, as far as the return types of the script need. -/
inductive PyVal where
  | int (n : Int)
  | str (s : String)
  | bool (b : Bool)
deriving DecidableEq, Repr

/-- The Python exceptions that can escape an operation of the script.
`runtimeError msg cause` is `raise RuntimeError(msg) from e` with
`cause = type(e).__name__`. -/
inductive PyErr where
  | valueError (msg : String)
  | permissionError (msg : String)
  | runtimeError (msg : String) (cause : Option String)
deriving DecidableEq, Repr

/-- `type(e).__name__`, as the script logs it. -/
def PyErr.typeName : PyErr → String
  | PyErr.valueError _ => "ValueError"
  | PyErr.permissionError _ => "PermissionError"
  | PyErr.runtimeError _ _ => "RuntimeError"

/-- Model of a bcrypt hash: the salt it was produced with and the
password it verifies.  The script never inspects a hash other than by
`bcrypt.checkpw`. -/
structure BcryptHash where
  salt : Nat
  password : String
deriving DecidableEq, Repr

/-- Model of `bcrypt.hashpw(password.encode(), salt)`. -/
def bcrypt_hashpw (password : String) (salt : Nat) : BcryptHash :=
  ⟨salt, password⟩

/-- Model of `bcrypt.checkpw(password.encode(), h)`: the hash verifies
exactly the password it was computed from. -/
def bcrypt_checkpw (password : String) (h : BcryptHash) : Bool :=
  bcrypt_hashpw password h.salt = h

/-- One row of the `users` table. -/
structure UserRec where
  id : Nat
  username : String
  passwordHash : BcryptHash
  email : String
  apiKey : String
deriving DecidableEq, Repr

/-- The `users` table. -/
structure DB where
  users : List UserRec
deriving DecidableEq, Repr

/-- SQLite `INTEGER PRIMARY KEY` auto-assignment: `max(id) + 1`,
so `1` for the first row of an empty table. -/
def nextId (db : DB) : Nat :=
  (db.users.map UserRec.id).foldr max 0 + 1

/-- Severity of a log line (`logger.info` / `warning` / `error`). -/
inductive LogLevel where
  | info
  | warning
  | error
deriving DecidableEq, Repr

/-- One log line. -/
structure LogEntry where
  level : LogLevel
  msg : String
deriving DecidableEq, Repr

/-- Observable side effects of one call: the number of SQLite
connections it opened (`get_connection`) and the log lines it wrote. -/
structure Effects where
  connectionsOpened : Nat
  log : List LogEntry
deriving DecidableEq, Repr

/-- Character class `[a-zA-Z0-9._%+-]` of the email regex. -/
def isLocalChar (c : Char) : Bool :=
  c.isAlphanum || c = '.' || c = '_' || c = '%' || c = '+' || c = '-'

/-- Character class `[a-zA-Z0-9.-]` of the email regex. -/
def isDomainChar (c : Char) : Bool :=
  c.isAlphanum || c = '.' || c = '-'

/-- Does `cs` match `[a-zA-Z0-9.-]+\.[a-zA-Z]\x7b2,\x7d` (the part of the
email regex after the `@`)?  True iff some dot splits `cs` into a
nonempty domain over the domain class and an all-letter TLD of length
at least 2. -/
def emailDomainOk (cs : List Char) : Bool :=
  (List.range cs.length).any fun i =>
    decide (1 ≤ i) && (cs.take i).all isDomainChar &&
    (match cs.drop i with
     | '.' :: t => t.all Char.isAlpha && decide (2 ≤ t.length)
     | _ => false)

/-- Match of `re.match(r"^[a-zA-Z0-9._%+-]+@[a-zA-Z0-9.-]+\.[a-zA-Z]\x7b2,\x7d$", s)`:
the string splits at an `@` into a nonempty local part over the local
class and a matching domain part.  Neither class contains `@`, so at
most one split position can work. -/
def email_matches (s : String) : Bool :=
  let cs := s.toList
  (List.range cs.length).any fun i =>
    decide (cs.get? i = some '@') &&
    decide (1 ≤ i) && (cs.take i).all isLocalChar &&
    emailDomainOk (cs.drop (i + 1))

/-- Whitespace stripped by Python `int(str)`. -/
def isPySpace (c : Char) : Bool :=
  c = ' ' || c = '\t' || c = '\n' || c = '\r' || c = '\x0b' || c = '\x0c'

/-- The number denoted by a list of decimal digits. -/
def digitsToNat (cs : List Char) : Nat :=
  cs.foldl (fun n c => n * 10 + (c.toNat - '0'.toNat)) 0

/-- Model of Python `int(s)` on a string: optional surrounding
whitespace, optional sign, then decimal digits; `none` when `int`
would raise `ValueError`. -/
def pyIntOfString (s : String) : Option Int :=
  let t := ((s.toList.dropWhile isPySpace).reverse.dropWhile isPySpace).reverse
  match t with
  | [] => Option.none
  | '-' :: rest =>
      if rest ≠ [] ∧ rest.all Char.isDigit then some (-(digitsToNat rest : Int))
      else Option.none
  | '+' :: rest =>
      if rest ≠ [] ∧ rest.all Char.isDigit then some (digitsToNat rest : Int)
      else Option.none
  | _ =>
      if t.all Char.isDigit then some (digitsToNat t : Int) else Option.none

/-- An id argument to `get_user_by_id` / `update_email`: a Python int
or a string. -/
inductive IdArg where
  | int (n : Int)
  | str (s : String)
deriving DecidableEq, Repr

/-- `user_id if isinstance(user_id, int) else int(user_id)`:
`none` when `int(...)` raises `ValueError`. -/
def coerceId : IdArg → Option Int
  | IdArg.int n => some n
  | IdArg.str s => pyIntOfString s

/-- How an `IdArg` prints in an f-string. -/
def IdArg.display : IdArg → String
  | IdArg.int n => toString n
  | IdArg.str s => s

/-- `UserDatabase.validate_input`.  Raises `ValueError` on a username
shorter than 3 characters or an email not matching the regex;
returns `True` otherwise. -/
def validate_input (username email : String) : Except PyErr Bool :=
  if username = "" ∨ username.length < 3 then
    Except.error (PyErr.valueError "Username must be a string of at least 3 characters")
  else if email = "" ∨ ¬ email_matches email then
    Except.error (PyErr.valueError "Invalid email format")
  else Except.ok true

/-- `UserDatabase.add_user`.  The whole body sits in a
`try ... except sqlite3.IntegrityError ... except Exception` block:
a validation `ValueError` raised inside the `try` is caught by the
`except Exception` arm and re-raised as
`RuntimeError("Failed to create user") from e`, while the
`ValueError("Username already exists")` raised *inside* the
`IntegrityError` handler escapes unwrapped.  On success the script
returns the Python literal `True`.  `salt` and `apiKey` stand for the
fresh `bcrypt.gensalt()` and `secrets.token_hex(16)`. -/
def add_user (db : DB) (username password email : String) (salt : Nat) (apiKey : String) :
    Except PyErr PyVal × DB × Effects :=
  match validate_input username email with
  | Except.error e =>
      (Except.error (PyErr.runtimeError "Failed to create user" (some e.typeName)), db,
       ⟨0, [⟨LogLevel.error, "Error in add_user: " ++ e.typeName⟩]⟩)
  | Except.ok _ =>
      if password = "" ∨ password.length < 8 then
        (Except.error (PyErr.runtimeError "Failed to create user" (some "ValueError")), db,
         ⟨0, [⟨LogLevel.error, "Error in add_user: ValueError"⟩]⟩)
      else
        if db.users.any (fun r => r.username = username) ||
           db.users.any (fun r => r.apiKey = apiKey) then
          (Except.error (PyErr.valueError "Username already exists"), db,
           ⟨1, [⟨LogLevel.warning, "Failed to create user: integrity constraint violated"⟩]⟩)
        else
          (Except.ok (PyVal.bool true),
           ⟨db.users ++ [⟨nextId db, username, bcrypt_hashpw password salt, email, apiKey⟩]⟩,
           ⟨1, [⟨LogLevel.info, "User created: " ++ username⟩]⟩)

/-- `UserDatabase.authenticate`.  Empty username or password returns
`None` before any connection is opened; otherwise the first row with
the username is fetched and the password checked with
`bcrypt.checkpw`. -/
def authenticate (db : DB) (username password : String) :
    Except PyErr (Option Nat) × DB × Effects :=
  if username = "" ∨ password = "" then
    (Except.ok Option.none, db, ⟨0, []⟩)
  else
    match db.users.find? (fun r => r.username = username) with
    | some u =>
        if bcrypt_checkpw password u.passwordHash then
          (Except.ok (some u.id), db,
           ⟨1, [⟨LogLevel.info, "Successful authentication for user ID: " ++ toString u.id⟩]⟩)
        else
          (Except.ok Option.none, db,
           ⟨1, [⟨LogLevel.warning, "Failed authentication attempt for username: " ++ username⟩]⟩)
    | Option.none =>
        (Except.ok Option.none, db,
         ⟨1, [⟨LogLevel.warning, "Failed authentication attempt for username: " ++ username⟩]⟩)

/-- The storage part of `UserDatabase.get_user_by_id` (its body from
`with self.get_connection()` on, after the id has been coerced): the
`SELECT` projects `id, username, email` only. -/
def get_user_lookup (db : DB) (uid : Int) :
    Except PyErr (Option (Nat × String × String)) × DB × Effects :=
  match db.users.find? (fun r => (r.id : Int) = uid) with
  | some u => (Except.ok (some (u.id, u.username, u.email)), db, ⟨1, []⟩)
  | Option.none =>
      (Except.ok Option.none, db,
       ⟨1, [⟨LogLevel.info, "No user found with ID: " ++ toString uid⟩]⟩)

/-- `UserDatabase.get_user_by_id`.  A non-int id is coerced with
`int(...)`; the `ValueError` of a failed coercion is caught by the
dedicated `except ValueError` arm, which re-raises
`ValueError("User ID must be a valid integer")` (raised inside the
handler, so it escapes the `except Exception` arm).  After coercion
the call continues as `get_user_lookup`. -/
def get_user_by_id (db : DB) (user_id : IdArg) :
    Except PyErr (Option (Nat × String × String)) × DB × Effects :=
  match coerceId user_id with
  | Option.none =>
      (Except.error (PyErr.valueError "User ID must be a valid integer"), db,
       ⟨0, [⟨LogLevel.error, "Invalid user ID format: " ++ user_id.display⟩]⟩)
  | some uid => get_user_lookup db uid

/-- The authorization-failure outcome of `UserDatabase.update_email`:
the script raises `PermissionError`, but the enclosing blanket
`except Exception` catches it and re-raises
`RuntimeError("Failed to update email") from e`. -/
def update_email_unauthorized (db : DB) (uid cuid : Int) :
    Except PyErr Bool × DB × Effects :=
  (Except.error (PyErr.runtimeError "Failed to update email" (some "PermissionError")), db,
   ⟨0, [⟨LogLevel.warning,
          "Unauthorized email update attempt: User " ++ toString cuid ++
          " tried to update User " ++ toString uid⟩,
        ⟨LogLevel.error, "Error updating email: PermissionError"⟩]⟩)

/-- The part of `UserDatabase.update_email` after the authorization
check has passed: email validation (whose `ValueError` the blanket
`except Exception` re-wraps into `RuntimeError`), then the SQL
`UPDATE`, which changes every row with the id; `cursor.rowcount > 0`
decides the returned boolean. -/
def update_email_authorized (db : DB) (uid : Int) (new_email : String) :
    Except PyErr Bool × DB × Effects :=
  if new_email = "" ∨ ¬ email_matches new_email then
    (Except.error (PyErr.runtimeError "Failed to update email" (some "ValueError")), db,
     ⟨0, [⟨LogLevel.error, "Error updating email: ValueError"⟩]⟩)
  else
    if db.users.any (fun r => (r.id : Int) = uid) then
      (Except.ok true,
       ⟨db.users.map (fun r =>
          if (r.id : Int) = uid then { r with email := new_email } else r)⟩,
       ⟨1, [⟨LogLevel.info, "Email updated for user ID: " ++ toString uid⟩]⟩)
    else
      (Except.ok false,
       ⟨db.users.map (fun r =>
          if (r.id : Int) = uid then { r with email := new_email } else r)⟩,
       ⟨1, [⟨LogLevel.warning,
              "No email updated for user ID: " ++ toString uid ++ " - user not found"⟩]⟩)

/-- `UserDatabase.update_email`.  Both ids are coerced to int before
the authorization comparison; a coercion `ValueError` is caught by the
blanket `except Exception` and re-raised as
`RuntimeError("Failed to update email") from e`.  The authorization
check compares the coerced ids; the branches are
`update_email_unauthorized` / `update_email_authorized` above. -/
def update_email (db : DB) (user_id current_user_id : IdArg) (new_email : String) :
    Except PyErr Bool × DB × Effects :=
  match coerceId user_id with
  | Option.none =>
      (Except.error (PyErr.runtimeError "Failed to update email" (some "ValueError")), db,
       ⟨0, [⟨LogLevel.error, "Error updating email: ValueError"⟩]⟩)
  | some uid =>
    match coerceId current_user_id with
    | Option.none =>
        (Except.error (PyErr.runtimeError "Failed to update email" (some "ValueError")), db,
         ⟨0, [⟨LogLevel.error, "Error updating email: ValueError"⟩]⟩)
    | some cuid =>
      if uid ≠ cuid then update_email_unauthorized db uid cuid
      else update_email_authorized db uid new_email

/-- The empty store, as after `create_tables` on a fresh file. -/
def dbEmpty : DB := ⟨[]⟩

/-- A store holding the single record the spec example creates. -/
def dbAlice : DB :=
  ⟨[⟨1, "alice", bcrypt_hashpw "p@ssword1" 0, "a@b.com", "k"⟩]⟩

/-- C1: the claim says `add_user` returns the new record's integer id
(`1` on an empty store).  In fact the script executes `return True`:
on the spec's own example the call returns the boolean `True`, not the
integer `1`. -/
theorem C1_counterexample :
    (add_user dbEmpty "alice" "p@ssword1" "a@b.com" 0 "k").1 = Except.ok (PyVal.bool true) ∧
    (add_user dbEmpty "alice" "p@ssword1" "a@b.com" 0 "k").1 ≠ Except.ok (PyVal.int 1) := by
  constructor
  · decide
  · decide

/-- C1 (amended): on every valid input triple on which the insert
succeeds, `add_user` returns the boolean `True`; the new record is
stored with the next free integer id (`nextId db`, which is `1` on an
empty store) but that id is not returned. -/
theorem C1_add_user_returns_true (db : DB) (u p e : String) (salt : Nat) (k : String)
    (hval : validate_input u e = Except.ok true)
    (hp : ¬ (p = "" ∨ p.length < 8))
    (hfresh : (db.users.any (fun r => r.username = u) ||
               db.users.any (fun r => r.apiKey = k)) = false) :
    (add_user db u p e salt k).1 = Except.ok (PyVal.bool true) ∧
    (add_user db u p e salt k).2.1.users =
      db.users ++ [⟨nextId db, u, bcrypt_hashpw p salt, e, k⟩] := by
  unfold add_user
  rw [hval, if_neg hp, hfresh]
  exact ⟨rfl, rfl⟩

/-- C1 (amended) at the spec's example: `add_user` on the empty store
returns `True` and stores the record with id `1`. -/
theorem C1_add_user_returns_true_witness :
    (add_user dbEmpty "alice" "p@ssword1" "a@b.com" 0 "k").1 = Except.ok (PyVal.bool true) ∧
    (add_user dbEmpty "alice" "p@ssword1" "a@b.com" 0 "k").2.1.users =
      dbEmpty.users ++ [⟨1, "alice", bcrypt_hashpw "p@ssword1" 0, "a@b.com", "k"⟩] := by
  have h := C1_add_user_returns_true dbEmpty "alice" "p@ssword1" "a@b.com" 0 "k"
    (by decide) (by decide) (by decide)
  exact h

/-- C2: the claim says `update_email` with `target_id ≠ requester_id`
raises the distinct authorization error.  The script does raise
`PermissionError` at the check, but the enclosing blanket
`except Exception` catches it and re-raises the generic
`RuntimeError("Failed to update email")`, the same type a storage
failure would surface as; the caller never sees `PermissionError`.
The stored email is indeed left unchanged. -/
theorem C2_authorization_error_swallowed :
    (update_email dbAlice (IdArg.int 1) (IdArg.int 2) "new@b.com").1 =
      Except.error (PyErr.runtimeError "Failed to update email" (some "PermissionError")) ∧
    (update_email dbAlice (IdArg.int 1) (IdArg.int 2) "new@b.com").2.1 = dbAlice ∧
    (update_email dbAlice (IdArg.int 1) (IdArg.int 2) "new@b.com").1 ≠
      Except.error (PyErr.permissionError "Not authorized to update this user's email") := by
  refine ⟨by decide, by decide, by decide⟩

/-- C3: the claim says `add_user` fails with the distinct validation
error before any storage access.  The validation `ValueError` is
raised before any connection is opened (connections opened = 0), but
it is raised *inside* the `try` block, so the blanket
`except Exception` arm catches it and re-raises the generic
`RuntimeError("Failed to create user")`; the caller never sees the
`ValueError`. -/
theorem C3_validation_error_swallowed :
    (add_user dbEmpty "ab" "p@ssword1" "a@b.com" 0 "k").1 =
      Except.error (PyErr.runtimeError "Failed to create user" (some "ValueError")) ∧
    (add_user dbEmpty "ab" "p@ssword1" "a@b.com" 0 "k").2.2.connectionsOpened = 0 ∧
    (add_user dbEmpty "ab" "p@ssword1" "a@b.com" 0 "k").1 ≠
      Except.error (PyErr.valueError "Username must be a string of at least 3 characters") := by
  refine ⟨by decide, by decide, by decide⟩

/-- C10: with an empty username, or an empty password, `authenticate`
returns `None` immediately: the store is unchanged, no connection is
opened and no log line is written. -/
theorem C10_empty_credentials_touch_nothing (db : DB) (u p : String) :
    authenticate db "" p = (Except.ok Option.none, db, ⟨0, []⟩) ∧
    authenticate db u "" = (Except.ok Option.none, db, ⟨0, []⟩) := by
  constructor
  · unfold authenticate
    rw [if_pos (Or.inl rfl)]
  · unfold authenticate
    rw [if_pos (Or.inr rfl)]

/-- C4: when a record with the username already exists, a second
`add_user` with valid inputs hits the `UNIQUE` constraint at `INSERT`
time: the `sqlite3.IntegrityError` handler raises
`ValueError("Username already exists")` (which escapes unwrapped),
the table is unchanged, and the failure happens after the connection
was opened (one connection: the constraint, not a prior existence
check, detects the duplicate). -/
theorem C4_duplicate_username (db : DB) (u p e : String) (salt : Nat) (k : String)
    (hdup : db.users.any (fun r => r.username = u) = true)
    (hval : validate_input u e = Except.ok true)
    (hp : ¬ (p = "" ∨ p.length < 8)) :
    (add_user db u p e salt k).1 = Except.error (PyErr.valueError "Username already exists") ∧
    (add_user db u p e salt k).2.1 = db ∧
    (add_user db u p e salt k).2.2.connectionsOpened = 1 := by
  unfold add_user
  rw [hval, if_neg hp]
  simp [hdup]

/-- C4 at the spec's example store: re-creating `alice` fails with the
duplicate error, leaves the row intact, and reached storage. -/
theorem C4_duplicate_username_witness :
    (add_user dbAlice "alice" "p@ssword2" "c@d.org" 5 "k2").1 =
      Except.error (PyErr.valueError "Username already exists") ∧
    (add_user dbAlice "alice" "p@ssword2" "c@d.org" 5 "k2").2.1 = dbAlice ∧
    (add_user dbAlice "alice" "p@ssword2" "c@d.org" 5 "k2").2.2.connectionsOpened = 1 :=
  C4_duplicate_username dbAlice "alice" "p@ssword2" "c@d.org" 5 "k2"
    (by decide) (by decide) (by decide)

/-- C7: on any id that coerces, `get_user_by_id` returns either `None`
or exactly the triple `(id, username, email)` of a stored record — the
`SELECT` projects those three columns, so no result can carry a
password hash or api key. -/
theorem C7_public_projection (db : DB) (v : IdArg) (n : Int)
    (h : coerceId v = some n) :
    (get_user_by_id db v).1 = Except.ok Option.none ∨
    ∃ r, r ∈ db.users ∧
      (get_user_by_id db v).1 = Except.ok (some (r.id, r.username, r.email)) := by
  have hv : get_user_by_id db v = get_user_lookup db n := by
    simp only [get_user_by_id, h]
  rw [hv]
  unfold get_user_lookup
  cases hf : db.users.find? (fun r => (r.id : Int) = n) with
  | none => left; rfl
  | some r => right; exact ⟨r, List.mem_of_find?_eq_some hf, rfl⟩

/-- C7 at the spec's example: looking up id 1 yields the public
projection of the `alice` record. -/
theorem C7_public_projection_witness :
    (get_user_by_id dbAlice (IdArg.int 1)).1 = Except.ok Option.none ∨
    ∃ r, r ∈ dbAlice.users ∧
      (get_user_by_id dbAlice (IdArg.int 1)).1 =
        Except.ok (some (r.id, r.username, r.email)) :=
  C7_public_projection dbAlice (IdArg.int 1) 1 (by decide)

/-- C8: `get_user_by_id` coerces its argument with `int(...)` before
the lookup — on a coercible argument the whole call behaves exactly as
with the coerced integer — and when coercion is impossible it fails
with `ValueError("User ID must be a valid integer")` (raised inside
the `except ValueError` handler, so it escapes unwrapped). -/
theorem C8_id_coercion (db : DB) (v : IdArg) :
    (∀ n : Int, coerceId v = some n →
      get_user_by_id db v = get_user_by_id db (IdArg.int n)) ∧
    (coerceId v = Option.none →
      (get_user_by_id db v).1 =
        Except.error (PyErr.valueError "User ID must be a valid integer")) := by
  constructor
  · intro n h
    have hv : get_user_by_id db v = get_user_lookup db n := by
      simp only [get_user_by_id, h]
    have hv2 : get_user_by_id db (IdArg.int n) = get_user_lookup db n := by
      simp only [get_user_by_id, coerceId]
    rw [hv, hv2]
  · intro h
    simp only [get_user_by_id, h]

/-- C8 on concrete ids: the string `"1"` behaves as the integer `1`,
and the non-numeric string `"abc"` fails with the validation error. -/
theorem C8_id_coercion_witness :
    get_user_by_id dbAlice (IdArg.str "1") = get_user_by_id dbAlice (IdArg.int 1) ∧
    (get_user_by_id dbAlice (IdArg.str "abc")).1 =
      Except.error (PyErr.valueError "User ID must be a valid integer") :=
  ⟨(C8_id_coercion dbAlice (IdArg.str "1")).1 1 (by decide),
   (C8_id_coercion dbAlice (IdArg.str "abc")).2 (by decide)⟩

/-- Characterization of the value `authenticate` returns: the early
empty-credential return, then lookup by username, then the bcrypt
check. -/
theorem authenticate_fst_eq (db : DB) (u p : String) :
    (authenticate db u p).1 =
      Except.ok (
        if u = "" ∨ p = "" then Option.none
        else
          match db.users.find? (fun r => r.username = u) with
          | some r => if bcrypt_checkpw p r.passwordHash then some r.id else Option.none
          | Option.none => Option.none) := by
  unfold authenticate
  by_cases h0 : u = "" ∨ p = ""
  · simp only [if_pos h0]
  · simp only [if_neg h0]
    cases db.users.find? (fun r => r.username = u) with
    | none => rfl
    | some r =>
      by_cases hc : bcrypt_checkpw p r.passwordHash = true
      · simp only [if_pos hc]
      · simp only [if_neg hc]

/-- C5: `authenticate` returns `None` — never an error — when the
username is empty, when the password is empty, when no record has the
username, or when the password fails the bcrypt check; and it returns
`some id` exactly on a successful verification of the looked-up
record. -/
theorem C5_authenticate_outcomes (db : DB) (u p : String) :
    (u = "" → (authenticate db u p).1 = Except.ok Option.none) ∧
    (p = "" → (authenticate db u p).1 = Except.ok Option.none) ∧
    (db.users.find? (fun r => r.username = u) = Option.none →
      (authenticate db u p).1 = Except.ok Option.none) ∧
    (∀ r, db.users.find? (fun r0 => r0.username = u) = some r →
      bcrypt_checkpw p r.passwordHash = false →
      (authenticate db u p).1 = Except.ok Option.none) ∧
    (∀ r, u ≠ "" → p ≠ "" → db.users.find? (fun r0 => r0.username = u) = some r →
      bcrypt_checkpw p r.passwordHash = true →
      (authenticate db u p).1 = Except.ok (some r.id)) ∧
    (∀ i, (authenticate db u p).1 = Except.ok (some i) →
      u ≠ "" ∧ p ≠ "" ∧ ∃ r, db.users.find? (fun r0 => r0.username = u) = some r ∧
        bcrypt_checkpw p r.passwordHash = true ∧ i = r.id) := by
  have he := authenticate_fst_eq db u p
  refine ⟨?_, ?_, ?_, ?_, ?_, ?_⟩
  · intro h; rw [he, if_pos (Or.inl h)]
  · intro h; rw [he, if_pos (Or.inr h)]
  · intro h
    rw [he]
    by_cases h0 : u = "" ∨ p = ""
    · rw [if_pos h0]
    · simp only [if_neg h0, h]
  · intro r hr hc
    rw [he]
    by_cases h0 : u = "" ∨ p = ""
    · rw [if_pos h0]
    · simp only [if_neg h0, hr]
      rw [if_neg (by simp [hc])]
  · intro r hu hp hr hc
    rw [he, if_neg (by simp [hu, hp])]
    simp only [hr]
    rw [if_pos hc]
  · intro i hi
    rw [he] at hi
    by_cases h0 : u = "" ∨ p = ""
    · rw [if_pos h0] at hi
      simp at hi
    · rw [if_neg h0] at hi
      push_neg at h0
      cases hf : db.users.find? (fun r0 => r0.username = u) with
      | none =>
          simp only [hf] at hi
          simp at hi
      | some r =>
          simp only [hf] at hi
          by_cases hc : bcrypt_checkpw p r.passwordHash = true
          · rw [if_pos hc] at hi
            exact ⟨h0.1, h0.2, r, rfl, hc,
              (Option.some.inj (Except.ok.inj hi)).symm⟩
          · rw [if_neg hc] at hi
            simp at hi

/-- C5 at the spec's example: the registered password authenticates as
id 1; a wrong password yields `None`. -/
theorem C5_authenticate_outcomes_witness :
    (authenticate dbAlice "alice" "p@ssword1").1 = Except.ok (some 1) ∧
    (authenticate dbAlice "alice" "wrong").1 = Except.ok Option.none := by
  have h1 := C5_authenticate_outcomes dbAlice "alice" "p@ssword1"
  have h2 := C5_authenticate_outcomes dbAlice "alice" "wrong"
  refine ⟨?_, ?_⟩
  · exact h1.2.2.2.2.1 ⟨1, "alice", bcrypt_hashpw "p@ssword1" 0, "a@b.com", "k"⟩
      (by decide) (by decide) (by decide) (by decide)
  · exact h2.2.2.2.1 ⟨1, "alice", bcrypt_hashpw "p@ssword1" 0, "a@b.com", "k"⟩
      (by decide) (by decide)

/-- C9: ids that coerce to the same integer (for example the string
`"5"` and the integer `5`) pass the authorization check of
`update_email`: the call proceeds exactly as `update_email_authorized`
on the coerced value, and its outcome is never the
authorization-failure error. -/
theorem C9_coerced_ids_authorize (db : DB) (a b : IdArg) (n : Int) (em : String)
    (ha : coerceId a = some n) (hb : coerceId b = some n) :
    update_email db a b em = update_email_authorized db n em ∧
    (update_email db a b em).1 ≠
      Except.error (PyErr.runtimeError "Failed to update email" (some "PermissionError")) := by
  have he : update_email db a b em = update_email_authorized db n em := by
    simp only [update_email, ha, hb]
    rw [if_neg (fun hcon => hcon rfl)]
  refine ⟨he, ?_⟩
  rw [he]
  unfold update_email_authorized
  by_cases hm : em = "" ∨ ¬ email_matches em
  · rw [if_pos hm]
    intro hcon
    exact absurd (Option.some.inj (PyErr.runtimeError.inj (Except.error.inj hcon)).2)
      (by decide)
  · rw [if_neg hm]
    by_cases hc : db.users.any (fun r => (r.id : Int) = n) = true
    · rw [if_pos hc]
      intro hcon
      exact Except.noConfusion hcon
    · rw [if_neg hc]
      intro hcon
      exact Except.noConfusion hcon

/-- C9 on the spec's example: the string `"1"` as target and the
integer `1` as requester pass authorization. -/
theorem C9_coerced_ids_authorize_witness :
    update_email dbAlice (IdArg.str "1") (IdArg.int 1) "new@b.com" =
      update_email_authorized dbAlice 1 "new@b.com" ∧
    (update_email dbAlice (IdArg.str "1") (IdArg.int 1) "new@b.com").1 ≠
      Except.error (PyErr.runtimeError "Failed to update email" (some "PermissionError")) :=
  C9_coerced_ids_authorize dbAlice (IdArg.str "1") (IdArg.int 1) 1 "new@b.com"
    (by decide) (by decide)

/-- The row-update function the SQL `UPDATE` of `update_email`
applies, and the row filter `WHERE id = ?`: updating a row does not
change its id, so the filter commutes with the update. -/
theorem find?_update_commutes (l : List UserRec) (n : Int) (em : String) :
    (l.map (fun r0 => if (r0.id : Int) = n then { r0 with email := em } else r0)).find?
        (fun r0 => (r0.id : Int) = n) =
      (l.find? (fun r0 => (r0.id : Int) = n)).map
        (fun r0 => if (r0.id : Int) = n then { r0 with email := em } else r0) := by
  rw [List.find?_map]
  have hcomp : ((fun r0 : UserRec => decide ((r0.id : Int) = n)) ∘ fun r0 =>
      if (r0.id : Int) = n then { r0 with email := em } else r0) =
      (fun r0 : UserRec => decide ((r0.id : Int) = n)) := by
    funext x
    by_cases hx : (x.id : Int) = n
    · simp [Function.comp, hx]
    · simp [Function.comp, hx]
  rw [hcomp]

/-- C6: with equal (coerced) target and requester ids and a valid new
email, `update_email` returns `true` exactly when a row with that id
exists and `false` (not an error) when none does; and after a `true`
return, `get_user_by_id` on that id shows the same username with the
new email. -/
theorem C6_update_email_self (db : DB) (i : IdArg) (n : Int) (em : String)
    (hi : coerceId i = some n) (hne : em ≠ "") (hm : email_matches em = true) :
    ((update_email db i i em).1 = Except.ok true ↔
        db.users.any (fun r => (r.id : Int) = n) = true) ∧
    ((update_email db i i em).1 = Except.ok false ↔
        db.users.any (fun r => (r.id : Int) = n) = false) ∧
    (∀ r, db.users.find? (fun r0 => (r0.id : Int) = n) = some r →
      (get_user_by_id (update_email db i i em).2.1 (IdArg.int n)).1 =
        Except.ok (some (r.id, r.username, em))) := by
  have he : update_email db i i em = update_email_authorized db n em := by
    simp only [update_email, hi]
    rw [if_neg (fun hcon => hcon rfl)]
  rw [he]
  unfold update_email_authorized
  rw [if_neg (by simp [hne, hm])]
  by_cases hc : db.users.any (fun r => (r.id : Int) = n) = true
  · rw [if_pos hc]
    refine ⟨by simp [hc], by simp [hc], ?_⟩
    intro r hf
    have hrn : (r.id : Int) = n := by simpa using List.find?_some hf
    have hfind : ((db.users.map
          (fun r0 => if (r0.id : Int) = n then { r0 with email := em } else r0)).find?
            (fun r0 => (r0.id : Int) = n)) = some { r with email := em } := by
      rw [find?_update_commutes, hf]
      simp [hrn]
    show (get_user_lookup
        ⟨db.users.map (fun r0 => if (r0.id : Int) = n then { r0 with email := em } else r0)⟩
        n).1 = Except.ok (some (r.id, r.username, em))
    unfold get_user_lookup
    rw [hfind]
  · rw [if_neg hc]
    have hc2 : db.users.any (fun r => (r.id : Int) = n) = false := by
      simpa using hc
    refine ⟨by simp [hc2], by simp [hc2], ?_⟩
    intro r hf
    exact absurd (List.any_eq_true.mpr
      ⟨r, List.mem_of_find?_eq_some hf, List.find?_some hf⟩) hc

/-- C6 at the spec's example: updating `alice`'s own email returns
`true` and the subsequent lookup shows the new email. -/
theorem C6_update_email_self_witness :
    (update_email dbAlice (IdArg.int 1) (IdArg.int 1) "new@b.com").1 = Except.ok true ∧
    (get_user_by_id (update_email dbAlice (IdArg.int 1) (IdArg.int 1) "new@b.com").2.1
        (IdArg.int 1)).1 = Except.ok (some (1, "alice", "new@b.com")) := by
  have h := C6_update_email_self dbAlice (IdArg.int 1) 1 "new@b.com"
    (by decide) (by decide) (by decide)
  exact ⟨h.1.mpr (by decide),
    h.2.2 ⟨1, "alice", bcrypt_hashpw "p@ssword1" 0, "a@b.com", "k"⟩ (by decide)⟩
